import Mathlib

/-!
Shallow embedding of the availability engine in
`src/backend/src/handlers/availability.ts`.

Times of day are modelled as minute counts (`Nat`).  The source stores and
passes times as "HH:MM" strings and converts back and forth with
`timeToMinutes` / `minutesToTime`; those string functions are embedded
below as well (section on string parsing) and `timeToMinutes_minutesToTime`
proves that the conversion round-trips, which justifies running the rest of
the pipeline directly on minute counts.  Dates are modelled as day indices
(`Nat`, days since the epoch); the current instant is a day index plus a
minute of day.  The SQL reads are modelled as filters over an `Env` record
holding the table contents; each SELECT is a named definition whose
predicate mirrors the WHERE clause.
-/

/-- Ephemeral slot value (interface TimeSlot); `endT` embeds the field
`end`, which is a keyword in Lean. -/
structure TimeSlot where
  start : Nat
  endT : Nat
  staffMemberId : Option Nat
  available : Bool
  deriving DecidableEq, Repr

/-- Row of the businesses table (columns used by the handler). -/
structure BusinessRecord where
  id : Nat
  btype : String
  booking_advance_days : Nat
  is_active : Bool
  deriving DecidableEq, Repr

/-- Full row of the services table. -/
structure ServiceRecord where
  id : Nat
  business_id : Nat
  duration_minutes : Nat
  capacity : Nat
  requires_staff : Bool
  buffer_before_minutes : Nat
  buffer_after_minutes : Nat
  is_active : Bool
  deriving DecidableEq, Repr

/-- Projection of a services row as selected by `calculateAvailableSlots`:
`SELECT duration_minutes, capacity, requires_staff, buffer_after_minutes,
is_active` — note that neither `id` nor `buffer_before_minutes` is
selected, so the JS row object has no `id` property. -/
structure ServiceRow where
  duration_minutes : Nat
  capacity : Nat
  requires_staff : Bool
  buffer_after_minutes : Nat
  is_active : Bool
  deriving DecidableEq, Repr

/-- Row of the staff_members table. -/
structure StaffMember where
  id : Nat
  business_id : Nat
  name : String
  is_active : Bool
  deriving DecidableEq, Repr

/-- Row of the staff_services join table. -/
structure StaffService where
  staff_member_id : Nat
  service_id : Nat
  deriving DecidableEq, Repr

/-- Row of the availability_rules table.  `staff_member_id = none` is a
business-wide rule. -/
structure AvailabilityRule where
  business_id : Nat
  staff_member_id : Option Nat
  day_of_week : Nat
  start_time : Nat
  end_time : Nat
  is_active : Bool
  deriving DecidableEq, Repr

/-- Row of the special_availability table; `start_time`/`end_time` may be
NULL (`none`). -/
structure SpecialAvailability where
  business_id : Nat
  staff_member_id : Option Nat
  date : Nat
  is_available : Bool
  start_time : Option Nat
  end_time : Option Nat
  deriving DecidableEq, Repr

/-- Row of the bookings table. -/
structure BookingRecord where
  business_id : Nat
  service_id : Nat
  staff_member_id : Option Nat
  booking_date : Nat
  start_time : Nat
  end_time : Nat
  party_size : Nat
  status : String
  deriving DecidableEq, Repr

/-- Database contents plus the current instant (`todayDay` at minute
`nowMinutes` of that day). -/
structure Env where
  businesses : List BusinessRecord
  services : List ServiceRecord
  staff_members : List StaffMember
  staff_services : List StaffService
  availability_rules : List AvailabilityRule
  special_availability : List SpecialAvailability
  bookings : List BookingRecord
  todayDay : Nat
  nowMinutes : Nat
  deriving DecidableEq, Repr

/-- Threshold constant MINIMUM_CONFLICT_MINUTES in `timesOverlap`. -/
def MINIMUM_CONFLICT_MINUTES : Nat := 10

/-- Embeds `timesOverlap`: a conflict requires the overlap duration to
reach the 10-minute threshold.  `Nat` subtraction models the
`Math.max(0, overlapEnd - overlapStart)` floor. -/
def timesOverlap (s1 e1 s2 e2 : Nat) : Bool :=
  let overlapStart := max s1 s2
  let overlapEnd := min e1 e2
  let overlapDuration := overlapEnd - overlapStart
  decide (MINIMUM_CONFLICT_MINUTES ≤ overlapDuration)

/-- Embeds `timesOverlapExact`: strict half-open interval overlap. -/
def timesOverlapExact (s1 e1 s2 e2 : Nat) : Bool :=
  decide (s1 < e2) && decide (s2 < e1)

/-- Embeds `getDayOfWeek` (JS `Date.getDay`, Sunday = 0); day 0 of the
epoch (1970-01-01) was a Thursday. -/
def getDayOfWeek (date : Nat) : Nat := (date + 4) % 7

/-- Loop of `generateTimeSlots`, fuelled; the source `while` runs while
`currentMinutes + durationMinutes <= endMinutes`. -/
def generateTimeSlotsAux : Nat → Nat → Nat → Nat → Nat → List TimeSlot
  | 0, _, _, _, _ => []
  | fuel + 1, cur, endM, dur, intervalMinutes =>
    if cur + dur ≤ endM then
      { start := cur, endT := cur + dur, staffMemberId := none, available := true } ::
        generateTimeSlotsAux fuel (cur + intervalMinutes) endM dur intervalMinutes
    else []

/-- Embeds `generateTimeSlots` (capacity path); `endM + 1` fuel bounds the
iteration count for any stride ≥ 1. -/
def generateTimeSlots (startM endM dur intervalMinutes : Nat) : List TimeSlot :=
  generateTimeSlotsAux (endM + 1) startM endM dur intervalMinutes

/-- Loop of `generateFixedTimeSlots`, fuelled; the source `while` runs
while `currentMinutes < endMinutes` and each slot ends at
`currentMinutes + intervalMinutes`. -/
def generateFixedTimeSlotsAux : Nat → Nat → Nat → Nat → List TimeSlot
  | 0, _, _, _ => []
  | fuel + 1, cur, endM, intervalMinutes =>
    if cur < endM then
      { start := cur, endT := cur + intervalMinutes, staffMemberId := none, available := true } ::
        generateFixedTimeSlotsAux fuel (cur + intervalMinutes) endM intervalMinutes
    else []

/-- Embeds `generateFixedTimeSlots` (staff path). -/
def generateFixedTimeSlots (startM endM intervalMinutes : Nat) : List TimeSlot :=
  generateFixedTimeSlotsAux (endM + 1) startM endM intervalMinutes

/-- Embeds the bookings SELECT of `filterByRestaurantCapacity`:
`WHERE business_id = $1 AND service_id = $2 AND booking_date = $3 AND
status IN ('confirmed','pending')`.  The serviceId argument is an
`Option` because the caller passes `service.id`, a property absent from
the selected service row (hence `undefined`, sent to SQL as NULL, and
`service_id = NULL` matches no row). -/
def capacityBookingsQuery (env : Env) (businessId : Nat) (serviceId : Option Nat)
    (date : Nat) : List BookingRecord :=
  env.bookings.filter (fun b =>
    b.business_id == businessId &&
    (match serviceId with
     | some sid => b.service_id == sid
     | none => false) &&
    b.booking_date == date &&
    (b.status == "confirmed" || b.status == "pending"))

/-- Embeds `filterByRestaurantCapacity`: every slot is kept and re-tagged
with `available = usedCapacity < maxCapacity`. -/
def filterByRestaurantCapacity (env : Env) (slots : List TimeSlot) (businessId : Nat)
    (serviceId : Option Nat) (date : Nat) (maxCapacity : Nat) : List TimeSlot :=
  let existingBookings := capacityBookingsQuery env businessId serviceId date
  slots.map (fun slot =>
    let usedCapacity := existingBookings.foldl (fun acc booking =>
      if timesOverlap slot.start slot.endT booking.start_time booking.end_time then
        acc + booking.party_size
      else acc) 0
    { slot with available := decide (usedCapacity < maxCapacity) })

/-- Embeds the business-wide availability_rules SELECT of
`getRestaurantSlots`. -/
def businessRulesQuery (env : Env) (businessId dayOfWeek : Nat) : List AvailabilityRule :=
  env.availability_rules.filter (fun r =>
    r.business_id == businessId && r.staff_member_id == none &&
    r.day_of_week == dayOfWeek && r.is_active)

/-- Embeds the business-wide special_availability SELECT of
`getRestaurantSlots`. -/
def businessSpecialQuery (env : Env) (businessId date : Nat) : List SpecialAvailability :=
  env.special_availability.filter (fun sp =>
    sp.business_id == businessId && sp.staff_member_id == none && sp.date == date)

/-- Embeds `getRestaurantSlots`.  The `service.id` argument of the
`filterByRestaurantCapacity` call is `none`: the selected service row has
no `id` column, so that JS property access yields `undefined`. -/
def getRestaurantSlots (env : Env) (businessId : Nat) (service : ServiceRow)
    (date : Nat) : List TimeSlot :=
  let dayOfWeek := getDayOfWeek date
  let hoursRows := businessRulesQuery env businessId dayOfWeek
  if hoursRows.isEmpty then []
  else
    let specialRows := businessSpecialQuery env businessId date
    match specialRows.head? with
    | some sp =>
      if !sp.is_available then []
      else
        let allSlots := hoursRows.flatMap (fun hours =>
          generateTimeSlots (sp.start_time.getD hours.start_time)
            (sp.end_time.getD hours.end_time) service.duration_minutes 15)
        filterByRestaurantCapacity env allSlots businessId none date service.capacity
    | none =>
      let allSlots := hoursRows.flatMap (fun hours =>
        generateTimeSlots hours.start_time hours.end_time service.duration_minutes 15)
      filterByRestaurantCapacity env allSlots businessId none date service.capacity

/-- Embeds the staff SELECT of `getStaffBasedSlots` (join of
staff_members and staff_services, optionally narrowed to the requested
staff member). -/
def eligibleStaff (env : Env) (businessId serviceId : Nat)
    (requestedStaffId : Option Nat) : List StaffMember :=
  env.staff_members.filter (fun sm =>
    sm.business_id == businessId && sm.is_active &&
    (match requestedStaffId with
     | some rid => sm.id == rid
     | none => true) &&
    env.staff_services.any (fun ss =>
      ss.staff_member_id == sm.id && ss.service_id == serviceId))

/-- Embeds the staff-scoped availability_rules SELECT (the source query
filters only on staff_member_id, day_of_week and is_active — no
business_id condition). -/
def staffRulesQuery (env : Env) (staffId dayOfWeek : Nat) : List AvailabilityRule :=
  env.availability_rules.filter (fun r =>
    r.staff_member_id == some staffId && r.day_of_week == dayOfWeek && r.is_active)

/-- Embeds the staff-scoped special_availability SELECT. -/
def staffSpecialQuery (env : Env) (staffId date : Nat) : List SpecialAvailability :=
  env.special_availability.filter (fun sp =>
    sp.staff_member_id == some staffId && sp.date == date)

/-- Candidate generation loop of `getStaffBasedSlots` (the `allSlots`
accumulation): per staff member, skip on no rule row or on a closing
override, otherwise generate fixed 15-minute slots per rule row with the
override times winning when present, tagged with the staff id. -/
def staffCandidateSlots (env : Env) (date : Nat) (staffRows : List StaffMember) :
    List TimeSlot :=
  staffRows.flatMap (fun staff =>
    let staffHours := staffRulesQuery env staff.id (getDayOfWeek date)
    if staffHours.isEmpty then []
    else
      let staffSpecial := staffSpecialQuery env staff.id date
      let gen := fun (spOpt : Option SpecialAvailability) =>
        staffHours.flatMap (fun hours =>
          let startT := (spOpt.bind (fun sp => sp.start_time)).getD hours.start_time
          let endT := (spOpt.bind (fun sp => sp.end_time)).getD hours.end_time
          (generateFixedTimeSlots startT endT 15).map (fun slot =>
            { slot with staffMemberId := some staff.id }))
      match staffSpecial.head? with
      | some sp => if !sp.is_available then [] else gen (some sp)
      | none => gen none)

/-- Row produced by the bookings-join-services SELECT of
`filterByServiceDurationAndBuffer` (only duration and after-buffer of the
booking's service are selected). -/
structure StaffBookingRow where
  staff_member_id : Option Nat
  start_time : Nat
  end_time : Nat
  duration_minutes : Nat
  buffer_after_minutes : Nat
  deriving DecidableEq, Repr

/-- Embeds the bookings SELECT of `filterByServiceDurationAndBuffer`:
pending/confirmed bookings of the business on the date, inner-joined with
their service row. -/
def staffBookingsQuery (env : Env) (businessId date : Nat) : List StaffBookingRow :=
  env.bookings.filterMap (fun b =>
    if b.business_id == businessId && b.booking_date == date &&
        (b.status == "confirmed" || b.status == "pending") then
      (env.services.find? (fun s => s.id == b.service_id)).map (fun s =>
        { staff_member_id := b.staff_member_id, start_time := b.start_time,
          end_time := b.end_time, duration_minutes := s.duration_minutes,
          buffer_after_minutes := s.buffer_after_minutes })
    else none)

/-- Embeds `filterByServiceDurationAndBuffer`: a slot survives iff it has
a staff id and the interval from its start to `start + duration +
after-buffer` has no exact overlap with any same-staff booking's interval
extended by that booking's after-buffer. -/
def filterByServiceDurationAndBuffer (env : Env) (slots : List TimeSlot)
    (businessId : Nat) (_serviceId : Nat) (date : Nat) (service : ServiceRow) :
    List TimeSlot :=
  let existingBookings := staffBookingsQuery env businessId date
  slots.filter (fun slot =>
    match slot.staffMemberId with
    | none => false
    | some stid =>
      let serviceEndMinutes := slot.start + service.duration_minutes +
        service.buffer_after_minutes
      existingBookings.all (fun booking =>
        if booking.staff_member_id == some stid then
          let bookingEnd := booking.end_time + booking.buffer_after_minutes
          !(timesOverlapExact slot.start serviceEndMinutes booking.start_time bookingEnd)
        else true))

/-- Embeds `getStaffBasedSlots`. -/
def getStaffBasedSlots (env : Env) (businessId serviceId : Nat) (service : ServiceRow)
    (date : Nat) (requestedStaffId : Option Nat) : List TimeSlot :=
  let staffRows := eligibleStaff env businessId serviceId requestedStaffId
  if staffRows.isEmpty then []
  else
    filterByServiceDurationAndBuffer env (staffCandidateSlots env date staffRows)
      businessId serviceId date service

/-- Embeds the business SELECT of `calculateAvailableSlots`. -/
def businessQuery (env : Env) (businessId : Nat) : List BusinessRecord :=
  env.businesses.filter (fun b => b.id == businessId)

/-- Embeds the service SELECT of `calculateAvailableSlots`; the projection
to `ServiceRow` drops every unselected column, in particular `id`. -/
def serviceQuery (env : Env) (serviceId businessId : Nat) : List ServiceRow :=
  (env.services.filter (fun s => s.id == serviceId && s.business_id == businessId)).map
    (fun s =>
      { duration_minutes := s.duration_minutes, capacity := s.capacity,
        requires_staff := s.requires_staff,
        buffer_after_minutes := s.buffer_after_minutes, is_active := s.is_active })

/-- Embeds `calculateAvailableSlots`; thrown `Error`s become `Except.error`
with the thrown message.  The advance-booking comparison is the JS `Date`
timestamp comparison at minute granularity: the request date at midnight
against the current instant moved forward by `booking_advance_days`
days. -/
def calculateAvailableSlots (env : Env) (businessId serviceId : Nat) (date : Nat)
    (staffMemberId : Option Nat) : Except String (List TimeSlot) :=
  match (businessQuery env businessId).head? with
  | none => .error "Business not found or inactive"
  | some business =>
    if !business.is_active then .error "Business not found or inactive"
    else
      match (serviceQuery env serviceId businessId).head? with
      | none => .error "Service not found or inactive"
      | some service =>
        if !service.is_active then .error "Service not found or inactive"
        else
          if (env.todayDay + business.booking_advance_days) * 1440 + env.nowMinutes <
              date * 1440 then
            .ok []
          else if business.btype == "restaurant" then
            .ok (getRestaurantSlots env businessId service date)
          else
            .ok (getStaffBasedSlots env businessId serviceId service date staffMemberId)

/-!
Generator lemmas: membership characterizations of the two slot-generation
loops, plus basic shape facts about every emitted slot.
-/

/-- Membership in the `generateTimeSlots` loop, for any stride ≥ 1 and
enough fuel: exactly the stride-grid starts whose slot still fits before
the window end. -/
lemma mem_generateTimeSlotsAux (endM dur step : Nat) (hstep : 1 ≤ step)
    (s e : Nat) (st : Option Nat) (av : Bool) :
    ∀ fuel cur, endM + 1 ≤ fuel + cur →
      ((⟨s, e, st, av⟩ : TimeSlot) ∈ generateTimeSlotsAux fuel cur endM dur step ↔
        ∃ k, s = cur + step * k ∧ e = s + dur ∧ st = none ∧ av = true ∧
          s + dur ≤ endM) := by
  intro fuel
  induction fuel with
  | zero =>
    intro cur hcur
    simp only [generateTimeSlotsAux, List.not_mem_nil, false_iff, not_exists]
    intro k hk
    obtain ⟨h1, -, -, -, h5⟩ := hk
    omega
  | succ fuel ih =>
    intro cur hcur
    simp only [generateTimeSlotsAux]
    by_cases h : cur + dur ≤ endM
    · rw [if_pos h, List.mem_cons, ih (cur + step) (by omega)]
      constructor
      · rintro (heq | ⟨k, h1, h2, h3, h4, h5⟩)
        · simp only [TimeSlot.mk.injEq] at heq
          obtain ⟨e1, e2, e3, e4⟩ := heq
          exact ⟨0, by omega, by omega, e3, e4, by omega⟩
        · refine ⟨k + 1, ?_, h2, h3, h4, h5⟩
          rw [Nat.mul_succ]
          omega
      · rintro ⟨k, h1, h2, h3, h4, h5⟩
        cases k with
        | zero =>
          left
          simp only [TimeSlot.mk.injEq]
          exact ⟨by omega, by omega, h3, h4⟩
        | succ k =>
          right
          refine ⟨k, ?_, h2, h3, h4, h5⟩
          rw [Nat.mul_succ] at h1
          omega
    · rw [if_neg h]
      simp only [List.not_mem_nil, false_iff, not_exists]
      intro k hk
      obtain ⟨h1, -, -, -, h5⟩ := hk
      omega

/-- Membership in the `generateFixedTimeSlots` loop: exactly the
stride-grid starts strictly before the window end, each slot one stride
long. -/
lemma mem_generateFixedTimeSlotsAux (endM step : Nat) (hstep : 1 ≤ step)
    (s e : Nat) (st : Option Nat) (av : Bool) :
    ∀ fuel cur, endM + 1 ≤ fuel + cur →
      ((⟨s, e, st, av⟩ : TimeSlot) ∈ generateFixedTimeSlotsAux fuel cur endM step ↔
        ∃ k, s = cur + step * k ∧ e = s + step ∧ st = none ∧ av = true ∧
          s < endM) := by
  intro fuel
  induction fuel with
  | zero =>
    intro cur hcur
    simp only [generateFixedTimeSlotsAux, List.not_mem_nil, false_iff, not_exists]
    intro k hk
    obtain ⟨h1, -, -, -, h5⟩ := hk
    omega
  | succ fuel ih =>
    intro cur hcur
    simp only [generateFixedTimeSlotsAux]
    by_cases h : cur < endM
    · rw [if_pos h, List.mem_cons, ih (cur + step) (by omega)]
      constructor
      · rintro (heq | ⟨k, h1, h2, h3, h4, h5⟩)
        · simp only [TimeSlot.mk.injEq] at heq
          obtain ⟨e1, e2, e3, e4⟩ := heq
          exact ⟨0, by omega, by omega, e3, e4, by omega⟩
        · refine ⟨k + 1, ?_, h2, h3, h4, h5⟩
          rw [Nat.mul_succ]
          omega
      · rintro ⟨k, h1, h2, h3, h4, h5⟩
        cases k with
        | zero =>
          left
          simp only [TimeSlot.mk.injEq]
          exact ⟨by omega, by omega, h3, h4⟩
        | succ k =>
          right
          refine ⟨k, ?_, h2, h3, h4, h5⟩
          rw [Nat.mul_succ] at h1
          omega
    · rw [if_neg h]
      simp only [List.not_mem_nil, false_iff, not_exists]
      intro k hk
      obtain ⟨h1, -, -, -, h5⟩ := hk
      omega

/-!
Capacity-path analysis: the used-capacity accumulation as a filtered sum,
one spec-side strict-overlap variant for comparison, and the code-side
10-minute-threshold variant.
-/

/-- Folding helper: the conditional accumulation in
`filterByRestaurantCapacity` equals the sum over the filtered list. -/
lemma foldl_if_add {α : Type} (p : α → Bool) (f : α → Nat) :
    ∀ (l : List α) (acc : Nat),
      l.foldl (fun a b => if p b then a + f b else a) acc =
        acc + ((l.filter p).map f).sum := by
  intro l
  induction l with
  | nil => intro acc; simp
  | cons x xs ih =>
    intro acc
    by_cases hx : p x = true
    · rw [List.foldl_cons, if_pos hx, ih, List.filter_cons, if_pos hx,
        List.map_cons, List.sum_cons]
      omega
    · rw [List.foldl_cons, if_neg hx, ih, List.filter_cons, if_neg hx]

/-- Spec-side capacity usage, following the spec's words: sum of
`partySize` over the matching bookings whose interval strictly overlaps
the slot (`s1 < e2 AND s2 < e1`). -/
def strictUsedCapacity (env : Env) (businessId : Nat) (serviceId : Option Nat)
    (date s e : Nat) : Nat :=
  (((capacityBookingsQuery env businessId serviceId date).filter (fun b =>
      decide (s < b.end_time) && decide (b.start_time < e))).map
    (fun b => b.party_size)).sum

/-- Code-side capacity usage: sum of `party_size` over the matching
bookings whose overlap with the slot lasts at least 10 minutes. -/
def thresholdUsedCapacity (env : Env) (businessId : Nat) (serviceId : Option Nat)
    (date s e : Nat) : Nat :=
  (((capacityBookingsQuery env businessId serviceId date).filter (fun b =>
      decide (10 ≤ min e b.end_time - max s b.start_time))).map
    (fun b => b.party_size)).sum

/-- Closed form of `filterByRestaurantCapacity`: each slot is re-tagged
with the threshold-based capacity test, nothing else changes. -/
lemma filterByRestaurantCapacity_spec (env : Env) (slots : List TimeSlot)
    (businessId : Nat) (serviceId : Option Nat) (date maxCapacity : Nat) :
    filterByRestaurantCapacity env slots businessId serviceId date maxCapacity =
      slots.map (fun sl =>
        { sl with available :=
            decide (thresholdUsedCapacity env businessId serviceId date
              sl.start sl.endT < maxCapacity) }) := by
  unfold filterByRestaurantCapacity
  refine List.map_congr_left ?_
  intro sl _
  rw [foldl_if_add]
  simp only [thresholdUsedCapacity, timesOverlap, MINIMUM_CONFLICT_MINUTES, Nat.zero_add]

/-- Environment for the C1 counterexample: one confirmed booking of
business 1, service 1, date 0 over minutes [565, 600), party size 5. -/
def envC1 : Env :=
  { businesses := [], services := [], staff_members := [], staff_services := [],
    availability_rules := [], special_availability := [],
    bookings := [{ business_id := 1, service_id := 1, staff_member_id := none,
                   booking_date := 0, start_time := 565, end_time := 600,
                   party_size := 5, status := "confirmed" }],
    todayDay := 0, nowMinutes := 0 }

/-- C1 is FALSE as stated: the slot [540, 570) strictly overlaps the
stored booking [565, 600) (of party size 5, against capacity 2), so the
claimed rule demands `available = (5 < 2) = false`; but the code's
`timesOverlap` only counts overlaps of at least 10 minutes, this overlap
lasts 5 minutes, and the emitted flag is `true`. -/
theorem c1_counterexample :
    (filterByRestaurantCapacity envC1 [⟨540, 570, none, true⟩] 1 (some 1) 0 2).map
        (fun sl => sl.available) = [true] ∧
      strictUsedCapacity envC1 1 (some 1) 0 540 570 = 5 ∧ ¬ (5 < 2) := by
  refine ⟨by decide, by decide, by decide⟩

/-- C1 as amended: in the capacity-based path the emitted `available`
flag equals `usedCapacity < capacity`, where `usedCapacity` sums
`party_size` over the pending/confirmed bookings of the same business,
service and date whose overlap with the slot lasts at least
MINIMUM_CONFLICT_MINUTES = 10 minutes (in particular a booking merely
touching a slot endpoint still never counts). -/
theorem c1_amended (env : Env) (slots : List TimeSlot) (businessId : Nat)
    (serviceId : Option Nat) (date maxCapacity : Nat) :
    filterByRestaurantCapacity env slots businessId serviceId date maxCapacity =
      slots.map (fun sl =>
        { sl with available :=
            decide (thresholdUsedCapacity env businessId serviceId date
              sl.start sl.endT < maxCapacity) }) :=
  filterByRestaurantCapacity_spec env slots businessId serviceId date maxCapacity

/-- C5: the capacity-based conflict resolution keeps every candidate slot
(with its start, end, staff tag and position unchanged) and only rewrites
the `available` flag. -/
theorem c5_slots_never_dropped (env : Env) (slots : List TimeSlot) (businessId : Nat)
    (serviceId : Option Nat) (date maxCapacity : Nat) :
    (filterByRestaurantCapacity env slots businessId serviceId date maxCapacity).map
        (fun sl => (sl.start, sl.endT, sl.staffMemberId)) =
      slots.map (fun sl => (sl.start, sl.endT, sl.staffMemberId)) := by
  rw [filterByRestaurantCapacity_spec, List.map_map]
  rfl

/-- With a NULL service id the capacity bookings query matches no stored
booking, whatever the bookings table holds. -/
lemma capacityBookingsQuery_none (env : Env) (businessId date : Nat) :
    capacityBookingsQuery env businessId none date = [] := by
  simp [capacityBookingsQuery]

/-- If the bookings query comes back empty and the capacity is positive,
every slot the capacity filter emits is tagged available. -/
lemma available_of_empty_query (env : Env) (slots : List TimeSlot) (businessId : Nat)
    (serviceId : Option Nat) (date maxCapacity : Nat)
    (hq : capacityBookingsQuery env businessId serviceId date = [])
    (hcap : 0 < maxCapacity) :
    ∀ sl ∈ filterByRestaurantCapacity env slots businessId serviceId date maxCapacity,
      sl.available = true := by
  intro sl hsl
  rw [filterByRestaurantCapacity_spec] at hsl
  obtain ⟨x, -, rfl⟩ := List.mem_map.mp hsl
  simp [thresholdUsedCapacity, hq, hcap]

/-- C2: because `calculateAvailableSlots` never selects the `id` column of
the service row, the capacity path keys its bookings query on an undefined
value; the query therefore matches no booking for any bookings table, the
used capacity of every candidate slot is 0, and (capacity being positive)
every capacity-based slot is emitted with `available = true`. -/
theorem c2_capacity_query_matches_nothing (env : Env) (businessId : Nat)
    (service : ServiceRow) (date : Nat) (hcap : 0 < service.capacity) :
    capacityBookingsQuery env businessId none date = [] ∧
      ∀ sl ∈ getRestaurantSlots env businessId service date, sl.available = true := by
  refine ⟨capacityBookingsQuery_none env businessId date, ?_⟩
  intro sl hsl
  simp only [getRestaurantSlots] at hsl
  split at hsl
  · simp at hsl
  · split at hsl
    · split at hsl
      · simp at hsl
      · exact available_of_empty_query _ _ _ _ _ _
          (capacityBookingsQuery_none env businessId date) hcap sl hsl
    · exact available_of_empty_query _ _ _ _ _ _
        (capacityBookingsQuery_none env businessId date) hcap sl hsl

/-- Environment for the C2 witness: active rule 09:00-10:00 on the
request date's weekday, and a confirmed party of 9 stored for the very
same business, service and date. -/
def envC2 : Env :=
  { businesses := [], services := [], staff_members := [], staff_services := [],
    availability_rules := [{ business_id := 1, staff_member_id := none,
                             day_of_week := 4, start_time := 540, end_time := 600,
                             is_active := true }],
    special_availability := [],
    bookings := [{ business_id := 1, service_id := 1, staff_member_id := none,
                   booking_date := 0, start_time := 540, end_time := 600,
                   party_size := 9, status := "confirmed" }],
    todayDay := 0, nowMinutes := 0 }

/-- Witness for C2 at a concrete input: capacity 2, a stored overlapping
party of 9, and still every emitted slot is available. -/
theorem c2_witness :
    0 < (⟨30, 2, false, 0, true⟩ : ServiceRow).capacity ∧
      (capacityBookingsQuery envC2 1 none 0 = [] ∧
        ∀ sl ∈ getRestaurantSlots envC2 1 ⟨30, 2, false, 0, true⟩ 0,
          sl.available = true) :=
  ⟨by decide, c2_capacity_query_matches_nothing envC2 1 ⟨30, 2, false, 0, true⟩ 0 (by decide)⟩

/-- C7 is FALSE as stated for the staff path's generator: over the window
[09:00, 09:20) = [540, 560) the fixed generator (slot length = stride =
15) also emits the slot starting at 555 even though 555 + 15 = 570
extends past the window end 560. -/
theorem c7_counterexample :
    ∃ sl ∈ generateFixedTimeSlots 540 560 15, ¬ (sl.start + 15 ≤ 560) := by
  decide

/-- C7 as amended: `generateTimeSlots` (capacity path) emits exactly the
slots anchored at windowStart + 15k with `start + L ≤ windowEnd`, none
extending past the window; `generateFixedTimeSlots` (staff path, slot
length = stride = 15) instead emits exactly the 15-minute slots whose
start is strictly before windowEnd, so its last slot may extend past
windowEnd when the window length is not a multiple of 15. -/
theorem c7_slot_generation (windowStart windowEnd L : Nat) (sl : TimeSlot) :
    (sl ∈ generateTimeSlots windowStart windowEnd L 15 ↔
      ∃ k, sl.start = windowStart + 15 * k ∧ sl.endT = sl.start + L ∧
        sl.staffMemberId = none ∧ sl.available = true ∧
        sl.start + L ≤ windowEnd) ∧
    (sl ∈ generateFixedTimeSlots windowStart windowEnd 15 ↔
      ∃ k, sl.start = windowStart + 15 * k ∧ sl.endT = sl.start + 15 ∧
        sl.staffMemberId = none ∧ sl.available = true ∧
        sl.start < windowEnd) := by
  obtain ⟨s, e, st, av⟩ := sl
  constructor
  · exact mem_generateTimeSlotsAux windowEnd L 15 (by omega) s e st av
      (windowEnd + 1) windowStart (by omega)
  · exact mem_generateFixedTimeSlotsAux windowEnd 15 (by omega) s e st av
      (windowEnd + 1) windowStart (by omega)

/-!
Staff-path analysis.
-/

/-- Shape of every slot the fixed generator's loop emits: fresh (available,
untagged), one stride long, starting no earlier than the loop cursor. -/
lemma mem_generateFixedTimeSlotsAux_props (endM step : Nat) :
    ∀ fuel cur, ∀ sl ∈ generateFixedTimeSlotsAux fuel cur endM step,
      sl.available = true ∧ sl.staffMemberId = none ∧
        sl.endT = sl.start + step ∧ cur ≤ sl.start := by
  intro fuel
  induction fuel with
  | zero => intro cur sl hsl; simp [generateFixedTimeSlotsAux] at hsl
  | succ fuel ih =>
    intro cur sl hsl
    simp only [generateFixedTimeSlotsAux] at hsl
    by_cases h : cur < endM
    · rw [if_pos h, List.mem_cons] at hsl
      rcases hsl with rfl | hsl
      · exact ⟨rfl, rfl, rfl, Nat.le_refl _⟩
      · obtain ⟨h1, h2, h3, h4⟩ := ih (cur + step) sl hsl
        exact ⟨h1, h2, h3, by omega⟩
    · rw [if_neg h] at hsl
      simp at hsl

/-- The fixed generator's loop emits slots with strictly increasing starts
whenever the stride is positive. -/
lemma pairwise_generateFixedTimeSlotsAux (endM step : Nat) (hstep : 1 ≤ step) :
    ∀ fuel cur, (generateFixedTimeSlotsAux fuel cur endM step).Pairwise
      (fun a b => a.start < b.start) := by
  intro fuel
  induction fuel with
  | zero => intro cur; simp [generateFixedTimeSlotsAux]
  | succ fuel ih =>
    intro cur
    simp only [generateFixedTimeSlotsAux]
    by_cases h : cur < endM
    · rw [if_pos h]
      refine List.Pairwise.cons ?_ (ih (cur + step))
      intro b hb
      have h4 := (mem_generateFixedTimeSlotsAux_props endM step fuel (cur + step) b hb).2.2.2
      show cur < b.start
      omega
    · rw [if_neg h]; exact List.Pairwise.nil

/-- Shape of every slot of one staff working-hours window: available,
15 minutes long, tagged with the staff id. -/
lemma mem_staffWindow_props (a b i : Nat) :
    ∀ sl ∈ (generateFixedTimeSlots a b 15).map
        (fun slot => { slot with staffMemberId := some i }),
      sl.available = true ∧ sl.endT = sl.start + 15 ∧ sl.staffMemberId = some i := by
  intro sl hsl
  obtain ⟨slot, hslot, rfl⟩ := List.mem_map.mp hsl
  obtain ⟨h1, -, h3, -⟩ :=
    mem_generateFixedTimeSlotsAux_props b 15 (b + 1) a slot hslot
  exact ⟨h1, h3, rfl⟩

/-- Shape of every staff candidate slot: available, 15 minutes long, and
tagged with the id of one of the eligible staff rows. -/
lemma mem_staffCandidateSlots_props (env : Env) (date : Nat)
    (staffRows : List StaffMember) :
    ∀ sl ∈ staffCandidateSlots env date staffRows,
      sl.available = true ∧ sl.endT = sl.start + 15 ∧
        ∃ staff ∈ staffRows, sl.staffMemberId = some staff.id := by
  intro sl hsl
  simp only [staffCandidateSlots, List.mem_flatMap] at hsl
  obtain ⟨staff, hstaff, hsl⟩ := hsl
  split at hsl
  · simp at hsl
  · split at hsl
    · split at hsl
      · simp at hsl
      · simp only [List.mem_flatMap] at hsl
        obtain ⟨hours, -, hsl⟩ := hsl
        obtain ⟨h1, h2, h3⟩ := mem_staffWindow_props _ _ _ sl hsl
        exact ⟨h1, h2, staff, hstaff, h3⟩
    · simp only [List.mem_flatMap] at hsl
      obtain ⟨hours, -, hsl⟩ := hsl
      obtain ⟨h1, h2, h3⟩ := mem_staffWindow_props _ _ _ sl hsl
      exact ⟨h1, h2, staff, hstaff, h3⟩

/-- Core survival property of the staff filter: a surviving slot carries a
staff id and its service interval (duration + after-buffer) has no exact
overlap with any same-staff booking row's after-buffered interval. -/
lemma mem_filterByServiceDurationAndBuffer (env : Env) (slots : List TimeSlot)
    (businessId serviceId date : Nat) (service : ServiceRow) (sl : TimeSlot)
    (hsl : sl ∈ filterByServiceDurationAndBuffer env slots businessId serviceId
      date service) :
    sl ∈ slots ∧
      ∀ row ∈ staffBookingsQuery env businessId date,
        row.staff_member_id = sl.staffMemberId →
          timesOverlapExact sl.start
            (sl.start + service.duration_minutes + service.buffer_after_minutes)
            row.start_time (row.end_time + row.buffer_after_minutes) = false := by
  simp only [filterByServiceDurationAndBuffer] at hsl
  obtain ⟨hmem, hpred⟩ := List.mem_filter.mp hsl
  refine ⟨hmem, ?_⟩
  intro row hrow heq
  rcases hid : sl.staffMemberId with _ | stid
  · rw [hid] at hpred; simp at hpred
  · rw [hid] at hpred
    have hall := List.all_eq_true.mp hpred row hrow
    rw [heq, hid] at hall
    simp only [beq_self_eq_true, if_true] at hall
    simpa using hall

/-- Environment for C3: staff member 1 works 09:00-10:00 on the request
weekday for service 1 (duration 15, buffer-before 15, buffer-after 0),
and a confirmed booking of that service holds staff 1 over 10:00-10:30 =
[600, 630). -/
def envC3 : Env :=
  { businesses := [],
    services := [{ id := 1, business_id := 1, duration_minutes := 15, capacity := 1,
                   requires_staff := true, buffer_before_minutes := 15,
                   buffer_after_minutes := 0, is_active := true }],
    staff_members := [{ id := 1, business_id := 1, name := "a", is_active := true }],
    staff_services := [{ staff_member_id := 1, service_id := 1 }],
    availability_rules := [{ business_id := 1, staff_member_id := some 1,
                             day_of_week := 4, start_time := 540, end_time := 600,
                             is_active := true }],
    special_availability := [],
    bookings := [{ business_id := 1, service_id := 1, staff_member_id := some 1,
                   booking_date := 0, start_time := 600, end_time := 630,
                   party_size := 1, status := "confirmed" }],
    todayDay := 0, nowMinutes := 0 }

/-- C3 is FALSE as stated: the staff path returns a slot (start 09:45 =
585) whose occupied interval, sized per the spec by duration +
buffer-before + buffer-after, strictly overlaps the same-staff booking's
buffered interval [start - bufferBefore, end + bufferAfter) =
[585, 630) — the code never subtracts the before-buffer. -/
theorem c3_counterexample :
    ∃ sl ∈ getStaffBasedSlots envC3 1 1 ⟨15, 1, true, 0, true⟩ 0 none,
      ∃ b ∈ envC3.bookings, ∃ srec ∈ envC3.services,
        srec.id = b.service_id ∧ b.staff_member_id = sl.staffMemberId ∧
        b.status = "confirmed" ∧ b.booking_date = 0 ∧
        timesOverlapExact sl.start
          (sl.start + srec.duration_minutes + srec.buffer_before_minutes +
            srec.buffer_after_minutes)
          (b.start_time - srec.buffer_before_minutes)
          (b.end_time + srec.buffer_after_minutes) = true := by
  decide

/-- C3 as amended: every slot returned by the staff-based path is tagged
available (conflicting candidates are dropped, never marked unavailable),
and its service interval [slot.start, slot.start + service.duration +
service.bufferAfter) has no strict overlap with any same-staff
pending/confirmed booking's interval extended only by that booking's
after-buffer [booking.start, booking.end + booking.bufferAfter) — the
before-buffer is not applied. -/
theorem c3_staff_conflicts (env : Env) (businessId serviceId : Nat)
    (service : ServiceRow) (date : Nat) (requestedStaffId : Option Nat)
    (sl : TimeSlot)
    (hsl : sl ∈ getStaffBasedSlots env businessId serviceId service date
      requestedStaffId) :
    sl.available = true ∧
      ∀ row ∈ staffBookingsQuery env businessId date,
        row.staff_member_id = sl.staffMemberId →
          timesOverlapExact sl.start
            (sl.start + service.duration_minutes + service.buffer_after_minutes)
            row.start_time (row.end_time + row.buffer_after_minutes) = false := by
  simp only [getStaffBasedSlots] at hsl
  split at hsl
  · simp at hsl
  · obtain ⟨hmem, hrows⟩ := mem_filterByServiceDurationAndBuffer _ _ _ _ _ _ _ hsl
    exact ⟨(mem_staffCandidateSlots_props _ _ _ sl hmem).1, hrows⟩

/-- Witness for C3 at a concrete input: the slot starting 09:00 survives
in `envC3` and indeed clears every same-staff booking row under the
after-buffer-only test. -/
theorem c3_witness :
    (⟨540, 555, some 1, true⟩ : TimeSlot) ∈
        getStaffBasedSlots envC3 1 1 ⟨15, 1, true, 0, true⟩ 0 none ∧
      ((⟨540, 555, some 1, true⟩ : TimeSlot).available = true ∧
        ∀ row ∈ staffBookingsQuery envC3 1 0,
          row.staff_member_id = some 1 →
            timesOverlapExact 540 (540 + 15 + 0)
              row.start_time (row.end_time + row.buffer_after_minutes) = false) :=
  ⟨by decide, c3_staff_conflicts envC3 1 1 ⟨15, 1, true, 0, true⟩ 0 none
    ⟨540, 555, some 1, true⟩ (by decide)⟩

/-- Environment for C4: staff member 1 works 09:00-10:00, service 1 has
duration 30 with zero buffers, no bookings. -/
def envC4 : Env :=
  { businesses := [],
    services := [{ id := 1, business_id := 1, duration_minutes := 30, capacity := 1,
                   requires_staff := true, buffer_before_minutes := 0,
                   buffer_after_minutes := 0, is_active := true }],
    staff_members := [{ id := 1, business_id := 1, name := "a", is_active := true }],
    staff_services := [{ staff_member_id := 1, service_id := 1 }],
    availability_rules := [{ business_id := 1, staff_member_id := some 1,
                             day_of_week := 4, start_time := 540, end_time := 600,
                             is_active := true }],
    special_availability := [], bookings := [], todayDay := 0, nowMinutes := 0 }

/-- C4 is FALSE as stated: for a 30-minute service with zero buffers the
staff path returns slots of length 15 (the fixed grid interval), not
duration + bufferBefore + bufferAfter = 30. -/
theorem c4_counterexample :
    ∃ sl ∈ getStaffBasedSlots envC4 1 1 ⟨30, 1, true, 0, true⟩ 0 none,
      ∃ srec ∈ envC4.services, srec.id = 1 ∧
        sl.endT - sl.start ≠ srec.duration_minutes + srec.buffer_before_minutes +
          srec.buffer_after_minutes := by
  decide

/-- C4 as amended: every slot returned by the staff-based path satisfies
slot.start < slot.end with slot.end - slot.start = 15, the fixed grid
interval — the slot's own length never includes the service duration or
buffers. -/
theorem c4_slot_length (env : Env) (businessId serviceId : Nat)
    (service : ServiceRow) (date : Nat) (requestedStaffId : Option Nat)
    (sl : TimeSlot)
    (hsl : sl ∈ getStaffBasedSlots env businessId serviceId service date
      requestedStaffId) :
    sl.start < sl.endT ∧ sl.endT = sl.start + 15 := by
  simp only [getStaffBasedSlots] at hsl
  split at hsl
  · simp at hsl
  · obtain ⟨hmem, -⟩ := mem_filterByServiceDurationAndBuffer _ _ _ _ _ _ _ hsl
    have h2 := (mem_staffCandidateSlots_props _ _ _ sl hmem).2.1
    omega

/-- Witness for C4 at a concrete input. -/
theorem c4_witness :
    (⟨540, 555, some 1, true⟩ : TimeSlot) ∈
        getStaffBasedSlots envC4 1 1 ⟨30, 1, true, 0, true⟩ 0 none ∧
      ((⟨540, 555, some 1, true⟩ : TimeSlot).start <
          (⟨540, 555, some 1, true⟩ : TimeSlot).endT ∧
        (⟨540, 555, some 1, true⟩ : TimeSlot).endT =
          (⟨540, 555, some 1, true⟩ : TimeSlot).start + 15) :=
  ⟨by decide, c4_slot_length envC4 1 1 ⟨30, 1, true, 0, true⟩ 0 none
    ⟨540, 555, some 1, true⟩ (by decide)⟩

/-- Spec-side ordering predicate: ascending lexicographic order by
(start, staffMemberId). -/
def sortedByStartStaff (l : List TimeSlot) : Prop :=
  l.Pairwise (fun a b =>
    a.start < b.start ∨
      (a.start = b.start ∧ a.staffMemberId.getD 0 ≤ b.staffMemberId.getD 0))

instance (l : List TimeSlot) : Decidable (sortedByStartStaff l) := by
  unfold sortedByStartStaff
  infer_instance

/-- One staff working-hours window yields slots with strictly increasing
starts. -/
lemma pairwise_staffWindow (a b i : Nat) :
    ((generateFixedTimeSlots a b 15).map
        (fun slot => { slot with staffMemberId := some i })).Pairwise
      (fun x y => x.start < y.start) := by
  refine List.Pairwise.map _ ?_ (pairwise_generateFixedTimeSlotsAux b 15 (by omega) (b + 1) a)
  intro x y hxy
  exact hxy

/-- Environment for the C6 counterexample: two staff members with the same
09:00-09:30 window for service 1, no bookings. -/
def envC6 : Env :=
  { businesses := [],
    services := [{ id := 1, business_id := 1, duration_minutes := 15, capacity := 1,
                   requires_staff := true, buffer_before_minutes := 0,
                   buffer_after_minutes := 0, is_active := true }],
    staff_members := [{ id := 1, business_id := 1, name := "a", is_active := true },
                      { id := 2, business_id := 1, name := "b", is_active := true }],
    staff_services := [{ staff_member_id := 1, service_id := 1 },
                       { staff_member_id := 2, service_id := 1 }],
    availability_rules := [{ business_id := 1, staff_member_id := some 1,
                             day_of_week := 4, start_time := 540, end_time := 570,
                             is_active := true },
                           { business_id := 1, staff_member_id := some 2,
                             day_of_week := 4, start_time := 540, end_time := 570,
                             is_active := true }],
    special_availability := [], bookings := [], todayDay := 0, nowMinutes := 0 }

/-- C6 is FALSE as stated: with two staff members the staff path returns
staff 1's slots followed by staff 2's slots, so a later slot can start
earlier (09:15 for staff 1 precedes 09:00 for staff 2) and the list is not
sorted by (start, staffMemberId) — the code never re-sorts. -/
theorem c6_counterexample :
    ¬ sortedByStartStaff (getStaffBasedSlots envC6 1 1 ⟨15, 1, true, 0, true⟩ 0 none) := by
  decide

/-- C6 as amended: the staff-based path applies no global (start,
staffMemberId) sort; it returns the surviving candidates in generation
order — a sublist of the per-staff concatenation of candidate slots — and
only when a single staff member with a single working-hours rule
contributes is the output strictly ascending by start. -/
theorem c6_order (env : Env) (businessId serviceId : Nat) (service : ServiceRow)
    (date : Nat) (requestedStaffId : Option Nat) :
    (getStaffBasedSlots env businessId serviceId service date
        requestedStaffId).Sublist
      (staffCandidateSlots env date
        (eligibleStaff env businessId serviceId requestedStaffId)) ∧
    (∀ st r, eligibleStaff env businessId serviceId requestedStaffId = [st] →
      staffRulesQuery env st.id (getDayOfWeek date) = [r] →
      (getStaffBasedSlots env businessId serviceId service date
          requestedStaffId).Pairwise (fun a b => a.start < b.start)) := by
  constructor
  · simp only [getStaffBasedSlots]
    split
    · exact List.nil_sublist _
    · simp only [filterByServiceDurationAndBuffer]
      exact List.filter_sublist _
  · intro st r hstaff hrule
    have hsub : (getStaffBasedSlots env businessId serviceId service date
        requestedStaffId).Sublist (staffCandidateSlots env date [st]) := by
      simp only [getStaffBasedSlots, hstaff]
      simp only [List.isEmpty_cons, Bool.false_eq_true, if_false,
        filterByServiceDurationAndBuffer]
      exact List.filter_sublist _
    refine List.Pairwise.sublist hsub ?_
    simp only [staffCandidateSlots, List.flatMap_cons, List.flatMap_nil,
      List.append_nil, hrule]
    simp only [List.isEmpty_cons, Bool.false_eq_true, if_false]
    split
    · split
      · exact List.Pairwise.nil
      · exact pairwise_staffWindow _ _ _
    · exact pairwise_staffWindow _ _ _

/-- Witness for C6 at a concrete input: in `envC3` exactly one staff
member with one rule row is eligible, and the output is a generation-order
sublist, strictly ascending by start. -/
theorem c6_witness :
    (getStaffBasedSlots envC3 1 1 ⟨15, 1, true, 0, true⟩ 0 none).Sublist
        (staffCandidateSlots envC3 0 (eligibleStaff envC3 1 1 none)) ∧
      (getStaffBasedSlots envC3 1 1 ⟨15, 1, true, 0, true⟩ 0 none).Pairwise
        (fun a b => a.start < b.start) :=
  ⟨(c6_order envC3 1 1 ⟨15, 1, true, 0, true⟩ 0 none).1,
    (c6_order envC3 1 1 ⟨15, 1, true, 0, true⟩ 0 none).2
      ⟨1, 1, "a", true⟩
      ⟨1, some 1, 4, 540, 600, true⟩ (by decide) (by decide)⟩

/-!
Pipeline-level claims: advance-booking horizon and fail-fast validation.
-/

/-- C8: when business and service validation pass and the requested date
lies beyond today + booking_advance_days, the calculation returns the
empty slot list as a normal result — whatever the hours, override and
bookings tables hold, so no slot generation can influence the outcome. -/
theorem c8_horizon (env : Env) (businessId serviceId date : Nat)
    (requestedStaffId : Option Nat) (b : BusinessRecord) (s : ServiceRow)
    (hnow : env.nowMinutes < 1440)
    (hb : (businessQuery env businessId).head? = some b)
    (hba : b.is_active = true)
    (hs : (serviceQuery env serviceId businessId).head? = some s)
    (hsa : s.is_active = true)
    (hdate : env.todayDay + b.booking_advance_days < date) :
    calculateAvailableSlots env businessId serviceId date requestedStaffId =
      .ok [] := by
  have hcond : (env.todayDay + b.booking_advance_days) * 1440 + env.nowMinutes <
      date * 1440 := by
    have h1 : env.todayDay + b.booking_advance_days + 1 ≤ date := hdate
    have h2 : (env.todayDay + b.booking_advance_days + 1) * 1440 ≤ date * 1440 :=
      Nat.mul_le_mul_right 1440 h1
    omega
  simp only [calculateAvailableSlots, hb, hba, hs, hsa, Bool.not_true,
    Bool.false_eq_true, if_false, if_pos hcond]

/-- Environment for the C8 witness: active restaurant business with a
5-day horizon, an active service, and a working-hours rule that would
generate slots on the requested weekday were the date inside the
horizon. -/
def envC8 : Env :=
  { businesses := [{ id := 1, btype := "restaurant", booking_advance_days := 5,
                     is_active := true }],
    services := [{ id := 1, business_id := 1, duration_minutes := 30, capacity := 2,
                   requires_staff := false, buffer_before_minutes := 0,
                   buffer_after_minutes := 0, is_active := true }],
    staff_members := [], staff_services := [],
    availability_rules := [{ business_id := 1, staff_member_id := none,
                             day_of_week := 3, start_time := 540, end_time := 600,
                             is_active := true }],
    special_availability := [], bookings := [], todayDay := 0, nowMinutes := 0 }

/-- Witness for C8: date = today + advanceBookingDays + 1 = 6 yields
`ok []`. -/
theorem c8_witness :
    calculateAvailableSlots envC8 1 1 6 none = .ok [] :=
  c8_horizon envC8 1 1 6 none ⟨1, "restaurant", 5, true⟩ ⟨30, 2, false, 0, true⟩
    (by decide) (by decide) (by decide) (by decide) (by decide) (by decide)

/-- C9: an absent-or-inactive business makes the calculation fail with the
business NotFound error before anything else is consulted (the conclusion
holds for every contents of the service, hours, override and bookings
tables), an absent-or-inactive service likewise fails with the service
NotFound error, and in either case the result is the typed error alone,
never an error alongside a partial slot list. -/
theorem c9_fail_fast (env : Env) (businessId serviceId date : Nat)
    (requestedStaffId : Option Nat) :
    (((businessQuery env businessId).head?.all (fun b => !b.is_active)) = true →
      calculateAvailableSlots env businessId serviceId date requestedStaffId =
        .error "Business not found or inactive") ∧
    (∀ b, (businessQuery env businessId).head? = some b → b.is_active = true →
      ((serviceQuery env serviceId businessId).head?.all (fun s => !s.is_active)) =
        true →
      calculateAvailableSlots env businessId serviceId date requestedStaffId =
        .error "Service not found or inactive") := by
  constructor
  · intro hfail
    rcases hhead : (businessQuery env businessId).head? with _ | b
    · simp only [calculateAvailableSlots, hhead]
    · rw [hhead] at hfail
      simp only [Option.all_some] at hfail
      simp only [calculateAvailableSlots, hhead, hfail, if_true]
  · intro b hb hact hsfail
    rcases hhead : (serviceQuery env serviceId businessId).head? with _ | s
    · simp only [calculateAvailableSlots, hb, hact, Bool.not_true,
        Bool.false_eq_true, if_false, hhead]
    · rw [hhead] at hsfail
      simp only [Option.all_some] at hsfail
      simp only [calculateAvailableSlots, hb, hact, Bool.not_true,
        Bool.false_eq_true, if_false, hhead, hsfail, if_true]

/-- Environment for the C9 witness, inactive business: every other table
is populated, yet the call fails with the business error. -/
def envC9a : Env :=
  { businesses := [{ id := 1, btype := "restaurant", booking_advance_days := 5,
                     is_active := false }],
    services := [{ id := 1, business_id := 1, duration_minutes := 30, capacity := 2,
                   requires_staff := false, buffer_before_minutes := 0,
                   buffer_after_minutes := 0, is_active := true }],
    staff_members := [], staff_services := [],
    availability_rules := [{ business_id := 1, staff_member_id := none,
                             day_of_week := 4, start_time := 540, end_time := 600,
                             is_active := true }],
    special_availability := [],
    bookings := [{ business_id := 1, service_id := 1, staff_member_id := none,
                   booking_date := 0, start_time := 540, end_time := 600,
                   party_size := 1, status := "confirmed" }],
    todayDay := 0, nowMinutes := 0 }

/-- Environment for the C9 witness, inactive service under an active
business. -/
def envC9b : Env :=
  { businesses := [{ id := 1, btype := "restaurant", booking_advance_days := 5,
                     is_active := true }],
    services := [{ id := 1, business_id := 1, duration_minutes := 30, capacity := 2,
                   requires_staff := false, buffer_before_minutes := 0,
                   buffer_after_minutes := 0, is_active := false }],
    staff_members := [], staff_services := [],
    availability_rules := [{ business_id := 1, staff_member_id := none,
                             day_of_week := 4, start_time := 540, end_time := 600,
                             is_active := true }],
    special_availability := [], bookings := [], todayDay := 0, nowMinutes := 0 }

/-- Witness for C9 at concrete inputs: the inactive business and the
inactive service each produce their typed error. -/
theorem c9_witness :
    calculateAvailableSlots envC9a 1 1 0 none =
        .error "Business not found or inactive" ∧
      calculateAvailableSlots envC9b 1 1 0 none =
        .error "Service not found or inactive" :=
  ⟨(c9_fail_fast envC9a 1 1 0 none).1 (by decide),
    (c9_fail_fast envC9b 1 1 0 none).2 ⟨1, "restaurant", 5, true⟩ (by decide)
      (by decide) (by decide)⟩

/-!
String-level time parsing (`timeToMinutes` / `minutesToTime`), modelling
the JS split / Number / toString / padStart pipeline on character lists.
-/

/-- Numeric value of a digit character (JS `Number` on a single digit). -/
def digitToNat (c : Char) : Nat := c.toNat - 48

/-- Decimal value of a digit string, most significant first. -/
def parseDigitsVal (l : List Char) : Nat :=
  l.foldl (fun a c => a * 10 + digitToNat c) 0

/-- Digit-string fragment of JS `Number` as used on the parts of "HH:MM":
a nonempty all-digit string parses to its decimal value, anything else
is NaN, modelled as `none`. -/
def jsNumber (l : List Char) : Option Nat :=
  if l ≠ [] ∧ l.all Char.isDigit = true then some (parseDigitsVal l) else none

/-- JS `String.prototype.split(":")` on character lists. -/
def splitOnColon : List Char → List (List Char)
  | [] => [[]]
  | c :: rest =>
    if c = ':' then [] :: splitOnColon rest
    else
      match splitOnColon rest with
      | [] => [[c]]
      | part :: parts => (c :: part) :: parts

/-- Embeds `timeToMinutes`: split on ':', convert the first two parts with
`Number`, return `hours * 60 + minutes`; `none` models the NaN produced
when a part is missing or not numeric.  No range validation occurs. -/
def timeToMinutes (timeString : String) : Option Nat :=
  match splitOnColon timeString.data with
  | hpart :: mpart :: _ =>
    match jsNumber hpart, jsNumber mpart with
    | some hours, some minutes => some (hours * 60 + minutes)
    | _, _ => none
  | _ => none

/-- JS decimal rendering (`Number.prototype.toString`). -/
def natRepr (n : Nat) : List Char :=
  if _h : n < 10 then [Nat.digitChar n]
  else natRepr (n / 10) ++ [Nat.digitChar (n % 10)]
termination_by n
decreasing_by exact Nat.div_lt_self (by omega) (by omega)

/-- JS `padStart(2, "0")`. -/
def padStart2 (l : List Char) : List Char :=
  List.replicate (2 - l.length) '0' ++ l

/-- Embeds `minutesToTime`: zero-padded "HH:MM" rendering. -/
def minutesToTime (totalMinutes : Nat) : String :=
  ⟨padStart2 (natRepr (totalMinutes / 60)) ++ ':' ::
    padStart2 (natRepr (totalMinutes % 60))⟩

lemma digitChar_isDigit {n : Nat} (h : n < 10) : (Nat.digitChar n).isDigit = true := by
  interval_cases n <;> decide

lemma digitToNat_digitChar {n : Nat} (h : n < 10) :
    digitToNat (Nat.digitChar n) = n := by
  interval_cases n <;> decide

lemma natRepr_ne_nil (n : Nat) : natRepr n ≠ [] := by
  rw [natRepr]
  split <;> simp

lemma natRepr_all_digits (n : Nat) : (natRepr n).all Char.isDigit = true := by
  induction n using Nat.strong_induction_on with
  | _ n ih =>
    rw [natRepr]
    split
    · simpa using digitChar_isDigit ‹n < 10›
    · rw [List.all_append]
      have h1 := ih (n / 10) (Nat.div_lt_self (by omega) (by omega))
      have h2 := digitChar_isDigit (Nat.mod_lt n (show 0 < 10 by omega))
      simp [h1, h2]

lemma parseDigitsVal_natRepr (n : Nat) : parseDigitsVal (natRepr n) = n := by
  induction n using Nat.strong_induction_on with
  | _ n ih =>
    rw [natRepr]
    split
    · simp [parseDigitsVal, digitToNat_digitChar ‹n < 10›]
    · have hrec := ih (n / 10) (Nat.div_lt_self (by omega) (by omega))
      have hdig := digitToNat_digitChar (Nat.mod_lt n (show 0 < 10 by omega))
      simp only [parseDigitsVal, List.foldl_append, List.foldl_cons, List.foldl_nil]
      simp only [parseDigitsVal] at hrec
      rw [hrec, hdig]
      omega

lemma parseDigitsVal_replicate_zero (l : List Char) :
    ∀ k, parseDigitsVal (List.replicate k '0' ++ l) = parseDigitsVal l := by
  intro k
  induction k with
  | zero => simp
  | succ k ih =>
    rw [List.replicate_succ, List.cons_append]
    show List.foldl _ (0 * 10 + digitToNat '0') _ = _
    have h0 : 0 * 10 + digitToNat '0' = 0 := by decide
    rw [h0]
    exact ih

lemma parseDigitsVal_padStart2 (l : List Char) :
    parseDigitsVal (padStart2 l) = parseDigitsVal l :=
  parseDigitsVal_replicate_zero l _

lemma padStart2_all_digits (l : List Char) (h : l.all Char.isDigit = true) :
    (padStart2 l).all Char.isDigit = true := by
  rw [padStart2, List.all_append, h]
  have : (List.replicate (2 - l.length) '0').all Char.isDigit = true := by
    rw [List.all_eq_true]
    intro c hc
    rw [List.eq_of_mem_replicate hc]
    decide
  simp [this]

lemma padStart2_ne_nil (l : List Char) (h : l ≠ []) : padStart2 l ≠ [] := by
  rw [padStart2]
  intro hc
  rw [List.append_eq_nil] at hc
  exact h hc.2

lemma jsNumber_padStart2_natRepr (k : Nat) :
    jsNumber (padStart2 (natRepr k)) = some k := by
  rw [jsNumber, if_pos ⟨padStart2_ne_nil _ (natRepr_ne_nil k),
    padStart2_all_digits _ (natRepr_all_digits k)⟩, parseDigitsVal_padStart2,
    parseDigitsVal_natRepr]

lemma not_colon_mem_of_all_digits (l : List Char) (h : l.all Char.isDigit = true) :
    ':' ∉ l := by
  intro hmem
  have := List.all_eq_true.mp h ':' hmem
  simp at this

lemma splitOnColon_no_colon (l : List Char) (h : ':' ∉ l) :
    splitOnColon l = [l] := by
  induction l with
  | nil => rfl
  | cons c rest ih =>
    have hc : ¬ c = ':' := fun hh => h (hh ▸ List.mem_cons_self c rest)
    have hrest : ':' ∉ rest := fun hh => h (List.mem_cons_of_mem c hh)
    simp only [splitOnColon, if_neg hc, ih hrest]

lemma splitOnColon_append (a b : List Char) (ha : ':' ∉ a) :
    splitOnColon (a ++ ':' :: b) = a :: splitOnColon b := by
  induction a with
  | nil => simp [splitOnColon]
  | cons c a ih =>
    have hc : ¬ c = ':' := fun hh => ha (hh ▸ List.mem_cons_self c a)
    have ha2 : ':' ∉ a := fun hh => ha (List.mem_cons_of_mem c hh)
    simp only [List.cons_append, splitOnColon, if_neg hc, List.append_eq, ih ha2]

/-- Round trip: parsing the rendered time gives back the minute count, for
every minute count, including values whose hour exceeds 23. -/
lemma timeToMinutes_minutesToTime (n : Nat) :
    timeToMinutes (minutesToTime n) = some n := by
  have hnc1 := not_colon_mem_of_all_digits _
    (padStart2_all_digits _ (natRepr_all_digits (n / 60)))
  have hnc2 := not_colon_mem_of_all_digits _
    (padStart2_all_digits _ (natRepr_all_digits (n % 60)))
  rw [timeToMinutes]
  show (match splitOnColon (padStart2 (natRepr (n / 60)) ++ ':' ::
      padStart2 (natRepr (n % 60))) with
    | hpart :: mpart :: _ =>
      match jsNumber hpart, jsNumber mpart with
      | some hours, some minutes => some (hours * 60 + minutes)
      | _, _ => none
    | _ => none) = some n
  rw [splitOnColon_append _ _ hnc1, splitOnColon_no_colon _ hnc2]
  simp only [jsNumber_padStart2_natRepr]
  congr 1
  omega

/-- C10 is FALSE as stated: for the out-of-range input "25:99" (hour 25,
minute 99) the parser does not fail with InvalidTimeFormat — no range
check exists — and instead returns 25 * 60 + 99 = 1599. -/
theorem c10_counterexample : timeToMinutes "25:99" = some 1599 := by
  decide

/-- C10 as amended: `timeToMinutes` performs no range validation and has
no failure path for numeric input; every rendered minute count parses back
to hour * 60 + minute (so hours above 23 round-trip as well, e.g.
26:39 = 1599), and only non-numeric or colon-free strings yield NaN. -/
theorem c10_no_validation :
    (∀ n : Nat, timeToMinutes (minutesToTime n) = some n) ∧
      timeToMinutes "26:39" = some 1599 ∧ timeToMinutes "0930" = none :=
  ⟨timeToMinutes_minutesToTime, by decide, by decide⟩
